import Mathlib

/-!
SSLC (TLS) service client, `libctru/include/3ds/services/sslc.h`

A shallow embedding of the declarations of `sslc.h`: the three enumerations
(`SSLC_DefaultRootCert`, `SSLC_DefaultClientCert`, `SSLC_SSLOpt`) are embedded
from the header.  The header only declares the `sslc*` functions; where a
property is about what such a function does, the function is modelled from the
specification and from the header's documentation comment, and says so.
-/

namespace Sslc

/-! ## Machine words -/

/-- Number of values of a `u32`. -/
def U32_MOD : Nat := 2 ^ 32

/-- Truncation of a natural number to a `u32`. -/
def toU32 (n : Nat) : Nat := n % U32_MOD

/-- Bitwise complement of a `u32` (the C operator `~` on a 32-bit word). -/
def not32 (n : Nat) : Nat := (U32_MOD - 1) ^^^ toU32 n

/-- Modelled from the spec: the macro `BIT` is used by `sslc.h` but defined in a
header that is not among the sources; `BIT(n)` is the 32-bit word with only bit
`n` set, `1U << n`, that is `2^n` for `n < 32`. -/
def BIT (n : Nat) : Nat := toU32 (1 <<< n)

/-! ## `SSLC_DefaultRootCert` -/

/-- The enumeration `SSLC_DefaultRootCert` of `sslc.h`. -/
inductive SSLC_DefaultRootCert where
  | Nintendo_CA
  | Nintendo_CA_G2
  | Nintendo_CA_G3
  | Nintendo_Class2_CA
  | Nintendo_Class2_CA_G2
  | Nintendo_Class2_CA_G3
  | CyberTrust
  | AddTrust_External_CA
  | COMODO
  | USERTrust
  | DigiCert_EV
  deriving DecidableEq

/-- The numeric value the header gives to each `SSLC_DefaultRootCert` member. -/
def SSLC_DefaultRootCert.val : SSLC_DefaultRootCert → Int
  | .Nintendo_CA => 0x1
  | .Nintendo_CA_G2 => 0x2
  | .Nintendo_CA_G3 => 0x3
  | .Nintendo_Class2_CA => 0x4
  | .Nintendo_Class2_CA_G2 => 0x5
  | .Nintendo_Class2_CA_G3 => 0x6
  | .CyberTrust => 0x7
  | .AddTrust_External_CA => 0x8
  | .COMODO => 0x9
  | .USERTrust => 0xA
  | .DigiCert_EV => 0xB

/-- The members of `SSLC_DefaultRootCert`, in the order of declaration. -/
def SSLC_DefaultRootCert.members : List SSLC_DefaultRootCert :=
  [.Nintendo_CA, .Nintendo_CA_G2, .Nintendo_CA_G3, .Nintendo_Class2_CA,
   .Nintendo_Class2_CA_G2, .Nintendo_Class2_CA_G3, .CyberTrust,
   .AddTrust_External_CA, .COMODO, .USERTrust, .DigiCert_EV]

/-! ## `SSLC_DefaultClientCert` -/

/-- The enumeration `SSLC_DefaultClientCert` of `sslc.h`. -/
inductive SSLC_DefaultClientCert where
  | ClCertA
  deriving DecidableEq

/-- The numeric value the header gives to each `SSLC_DefaultClientCert` member. -/
def SSLC_DefaultClientCert.val : SSLC_DefaultClientCert → Int
  | .ClCertA => 0x40

/-- The members of `SSLC_DefaultClientCert`, in the order of declaration. -/
def SSLC_DefaultClientCert.members : List SSLC_DefaultClientCert := [.ClCertA]

/-! ## `SSLC_SSLOpt` -/

/-- The constant `SSLCOPT_Default` of the enumeration `SSLC_SSLOpt`. -/
def SSLCOPT_Default : Nat := 0

/-- The constant `SSLCOPT_DisableVerify` of `SSLC_SSLOpt`: disables server cert
verification when set. -/
def SSLCOPT_DisableVerify : Nat := BIT 9

/-- The constant `SSLCOPT_TLSv10` of `SSLC_SSLOpt`: use TLSv1.0. -/
def SSLCOPT_TLSv10 : Nat := BIT 11

/-- Modelled from the spec: `sslcContextClearOpt` is only declared in `sslc.h`,
its body and the service that holds the options field are not among the
sources.  The header says it "clears the options field bits for the context
using the specified bitmask": the new options word is the old one with every
bit of `bitmask` cleared, `opt & ~bitmask` on 32-bit words. -/
def clearOpt (opt bitmask : Nat) : Nat := toU32 opt &&& not32 bitmask

/-! ## Contexts, sessions and collaborators -/

/-- The structure `sslcContext` of `sslc.h`: the handles a client holds for one
TLS session. -/
structure sslcContext where
  /-- Service handle. -/
  servhandle : Nat
  /-- SSLC handle. -/
  sslchandle : Nat
  deriving DecidableEq

/-- Modelled from the spec: the error kinds of §7 (the header only gives the
type `Result`, whose encoding is not among the sources). -/
inductive Error where
  | ServiceUnavailable
  | InvalidHandle
  | InvalidArgument
  | CertFormatError
  | KeyFormatError
  | ResourceExhausted
  | RequestTooLarge
  | HandshakeFailure
  | TransferError
  deriving DecidableEq

/-- Modelled from the spec: the states of a TLS session, §4.5. -/
inductive SessionState where
  | Created
  | Configured
  | Handshaking
  | Established
  | Closed
  deriving DecidableEq

/-- Modelled from the spec: the TLSSession of §3 (bound socket descriptor,
session identifier, option bitmask, optional root chain, optional client
certificate, auxiliary context, state), together with the incoming stream of
the glossary entry "peek read": the bytes available to read, oldest first. -/
structure TLSSession where
  context : sslcContext
  sockfd : Int
  opt : Nat
  rootCertChain : Option Nat
  clientCert : Option Nat
  handle8 : Option Nat
  state : SessionState
  incoming : List Nat
  deriving DecidableEq

/-- Modelled from the spec: the transport collaborator of §6, reduced to what
the session operations need from it: which descriptors are valid and open. -/
structure Transport where
  isOpen : Int → Bool

/-- Modelled from the spec: the ServiceConnection of §3 (open/closed flag and
underlying connection handle). -/
structure ServiceConnection where
  isOpen : Bool
  handle : Nat
  deriving DecidableEq

/-- Requests `sslcInit` can make of its collaborators: service discovery
(`srvGetServiceHandle`) and the service's Initialize command. -/
inductive InitAction where
  | Discover
  | Initialize
  deriving DecidableEq

/-- What the collaborators answer to the requests of `sslcInit`: the handle
found by discovery, if any, and whether the Initialize command succeeds. -/
structure InitEnv where
  discovered : Option Nat
  initOk : Bool

/-- Modelled from the spec: the service connection as the library holds it.
Spec §2: the Service Connection is a "process-wide handle to the remote TLS
service; opened once, reference-counted by library init/teardown": next to the
ServiceConnection of §3 the library keeps the number of references taken by
init and not yet given back by teardown. -/
structure SslcService where
  conn : ServiceConnection
  refcount : Nat
  deriving DecidableEq

/-- Outcome of `sslcInit`: its result, the library's service connection
afterwards and the requests it made, in order. -/
structure InitOutcome where
  result : Except Error Unit
  service : SslcService
  actions : List InitAction

/-- Modelled from the spec: `sslcInit` is only declared in `sslc.h`.  Spec §2:
the connection is "opened once, reference-counted by library init/teardown":
on a connection that is already open, init only takes one more reference.
Spec §4.1, for opening it: "if a caller-supplied handle is given, adopt it
without performing discovery; otherwise discover and open the service
connection.  Fails with ServiceUnavailable if discovery fails"; header: "When
non-zero this will use the specified handle for the main-service-session
without using the Initialize command, instead of using srvGetServiceHandle".
A failed init takes no reference and leaves the connection as it was. -/
def sslcInit (sv : SslcService) (session_handle : Nat) (env : InitEnv) : InitOutcome :=
  if sv.conn.isOpen then
    { result := .ok (), service := { sv with refcount := sv.refcount + 1 }, actions := [] }
  else if session_handle ≠ 0 then
    { result := .ok (),
      service := { conn := { isOpen := true, handle := session_handle },
                   refcount := sv.refcount + 1 },
      actions := [] }
  else
    match env.discovered with
    | none =>
      { result := .error .ServiceUnavailable, service := sv, actions := [.Discover] }
    | some h =>
      if env.initOk then
        { result := .ok (),
          service := { conn := { isOpen := true, handle := h }, refcount := sv.refcount + 1 },
          actions := [.Discover, .Initialize] }
      else
        { result := .error .ServiceUnavailable, service := sv,
          actions := [.Discover, .Initialize] }

/-- Modelled from the spec: `sslcCreateContext` is only declared in `sslc.h`.
Spec §4.5: "create(socketFd, options, hostname): Created.  Fails with
InvalidArgument if hostname is empty or socketFd does not refer to a usable
descriptor".  The session identifier `sslchandle` is the one the remote service
assigns. -/
def sslcCreateContext (t : Transport) (conn : ServiceConnection) (sslchandle : Nat)
    (sockfd : Int) (input_opt : Nat) (hostname : String) : Except Error TLSSession :=
  if hostname.isEmpty || !t.isOpen sockfd then .error .InvalidArgument
  else
    .ok { context := { servhandle := conn.handle, sslchandle := sslchandle },
          sockfd := sockfd, opt := toU32 input_opt, rootCertChain := none,
          clientCert := none, handle8 := none, state := .Created, incoming := [] }

/-- Outcome of `sslcDestroyContext`: its result, the transport and the session
afterwards. -/
structure DestroyOutcome where
  result : Except Error Unit
  transport : Transport
  session : TLSSession

/-- Modelled from the spec: `sslcDestroyContext` is only declared in `sslc.h`.
Spec §4.5: "destroy(session): valid from any state; transitions to Closed.  Does
not close the bound socket"; header: "The associated sockfd must be closed
manually". -/
def sslcDestroyContext (t : Transport) (s : TLSSession) : DestroyOutcome :=
  { result := .ok (), transport := t, session := { s with state := .Closed } }

/-- Outcome of `sslcStartConnection`: its result, the session afterwards, and
the contents of the caller's two optional output locations afterwards (`none`
for a null pointer). -/
structure StartOutcome where
  result : Except Error Unit
  session : TLSSession
  internal_retval : Option Int
  out : Option Nat

/-- Modelled from the spec: `sslcStartConnection` is only declared in `sslc.h`.
Spec §4.5: "Created/Configured → Handshaking → Established on success, or →
Closed-on-error on failure", the two optional outputs "populated only on
success"; header: "The value is only copied to here by this function when no
error occurred".  `handshake` is the remote service's answer: `none` when the
handshake fails, else the internal diagnostic code and the secondary output
word.  The spec names no error for a call in another state; the model reports
HandshakeFailure there and leaves the session as it is. -/
def sslcStartConnection (s : TLSSession) (handshake : Option (Int × Nat))
    (internal_retval : Option Int) (out : Option Nat) : StartOutcome :=
  if s.state = .Created ∨ s.state = .Configured then
    match handshake with
    | some (code, word) =>
      { result := .ok (), session := { s with state := .Established },
        internal_retval := internal_retval.map (fun _ => code),
        out := out.map (fun _ => toU32 word) }
    | none =>
      { result := .error .HandshakeFailure, session := { s with state := .Closed },
        internal_retval := internal_retval, out := out }
  else
    { result := .error .HandshakeFailure, session := s,
      internal_retval := internal_retval, out := out }

/-- Outcome of `sslcRead`: the bytes placed in the caller's buffer (their
number is the transferred size the call returns) or an error, and the session
afterwards. -/
structure ReadOutcome where
  result : Except Error (List Nat)
  session : TLSSession

/-- Modelled from the spec: `sslcRead` is only declared in `sslc.h`.  Spec §4.5:
"read(session, length, peek): valid only in Established.  peek=true must not
consume the data from the stream.  Returns the count of bytes actually
transferred, which may be less than requested"; glossary: a peek read "returns
available data without removing it from the incoming stream".  The spec names
no error for a call in another state; the model reports TransferError there. -/
def sslcRead (s : TLSSession) (len : Nat) (peek : Bool) : ReadOutcome :=
  if s.state = .Established then
    { result := .ok (s.incoming.take len),
      session := if peek then s else { s with incoming := s.incoming.drop len } }
  else
    { result := .error .TransferError, session := s }

/-- A session in state Created, bound to descriptor 3, used in the examples. -/
def exampleSession : TLSSession :=
  { context := { servhandle := 7, sslchandle := 1 }, sockfd := 3,
    opt := SSLCOPT_Default, rootCertChain := none, clientCert := none,
    handle8 := none, state := .Created, incoming := [] }

/-- An Established session with four bytes waiting in its incoming stream. -/
def exampleEstablished : TLSSession :=
  { exampleSession with state := .Established, incoming := [112, 105, 110, 103] }

/-- A transport in which exactly descriptor 3 is open. -/
def exampleTransport : Transport := { isOpen := fun fd => fd == 3 }

/-! ## Lemmas -/

theorem mem_rootCert_members (c : SSLC_DefaultRootCert) :
    c ∈ SSLC_DefaultRootCert.members := by
  cases c <;> decide

theorem rootCert_val_injective : Function.Injective SSLC_DefaultRootCert.val := by
  intro a b h
  cases a <;> cases b <;> first | rfl | (exact absurd h (by decide))

theorem rootCert_val_range (c : SSLC_DefaultRootCert) : 1 ≤ c.val ∧ c.val ≤ 11 := by
  cases c <;> decide

theorem rootCert_of_range (v : Int) (h1 : 1 ≤ v) (h2 : v ≤ 11) :
    ∃ c ∈ SSLC_DefaultRootCert.members, SSLC_DefaultRootCert.val c = v := by
  interval_cases v <;> decide

theorem testBit_clearOpt (opt bitmask i : Nat) :
    (clearOpt opt bitmask).testBit i
      = (decide (i < 32) && opt.testBit i && !bitmask.testBit i) := by
  unfold clearOpt not32 toU32 U32_MOD
  rw [Nat.testBit_and, Nat.testBit_xor, Nat.testBit_mod_two_pow, Nat.testBit_mod_two_pow,
    Nat.testBit_two_pow_sub_one]
  by_cases h : i < 32 <;> simp [h]

theorem disableVerify_eq : SSLCOPT_DisableVerify = 2 ^ 9 := by decide

theorem tlsv10_eq : SSLCOPT_TLSv10 = 2 ^ 11 := by decide

/-- Clearing the bit `2^j` leaves the bit `2^i` of an option word as it was,
for two different bit positions below 32. -/
theorem clearOpt_other_bit (m i j : Nat) (hi : i < 32) (hij : i ≠ j) :
    clearOpt m (2 ^ j) &&& 2 ^ i = m &&& 2 ^ i := by
  apply Nat.eq_of_testBit_eq
  intro k
  rw [Nat.testBit_and, Nat.testBit_and, testBit_clearOpt, Nat.testBit_two_pow,
    Nat.testBit_two_pow]
  by_cases h : i = k
  · subst h
    have hji : ¬ j = i := fun e => hij e.symm
    simp [hi, hji]
  · simp [h]

/-! ## Theorems -/

/-- C1: clearing an option is per-bit: `SSLCOPT_DisableVerify | SSLCOPT_TLSv10`
cleared with `SSLCOPT_TLSv10` is `SSLCOPT_DisableVerify`, and for every option
word `m`, clearing `SSLCOPT_TLSv10` leaves the `SSLCOPT_DisableVerify` bit of
`m` as it was and clearing `SSLCOPT_DisableVerify` leaves the `SSLCOPT_TLSv10`
bit of `m` as it was. -/
theorem clearOpt_per_bit :
    clearOpt (SSLCOPT_DisableVerify ||| SSLCOPT_TLSv10) SSLCOPT_TLSv10 = SSLCOPT_DisableVerify
    ∧ (∀ m : Nat, clearOpt m SSLCOPT_TLSv10 &&& SSLCOPT_DisableVerify
        = m &&& SSLCOPT_DisableVerify)
    ∧ (∀ m : Nat, clearOpt m SSLCOPT_DisableVerify &&& SSLCOPT_TLSv10
        = m &&& SSLCOPT_TLSv10) := by
  refine ⟨by decide, fun m => ?_, fun m => ?_⟩
  · rw [disableVerify_eq, tlsv10_eq]
    exact clearOpt_other_bit m 9 11 (by decide) (by decide)
  · rw [disableVerify_eq, tlsv10_eq]
    exact clearOpt_other_bit m 11 9 (by decide) (by decide)

/-- C2: `SSLC_DefaultRootCert` has exactly eleven members (the list of its
members has length eleven, has no repetition and holds every value of the
type), and their numeric values are pairwise distinct. -/
theorem defaultRootCert_eleven_distinct :
    SSLC_DefaultRootCert.members.length = 11
    ∧ SSLC_DefaultRootCert.members.Nodup
    ∧ (∀ c : SSLC_DefaultRootCert, c ∈ SSLC_DefaultRootCert.members)
    ∧ (SSLC_DefaultRootCert.members.map SSLC_DefaultRootCert.val).Nodup
    ∧ (∀ a b : SSLC_DefaultRootCert, a ≠ b → a.val ≠ b.val) :=
  ⟨by decide, by decide, mem_rootCert_members, by decide,
    fun _ _ hab h => hab (rootCert_val_injective h)⟩

/-- C3: `SSLC_DefaultRootCert_Nintendo_CA` equals 1 and is the only member of
`SSLC_DefaultRootCert` with that value. -/
theorem nintendo_CA_is_one :
    SSLC_DefaultRootCert.Nintendo_CA.val = 0x1
    ∧ ∀ c : SSLC_DefaultRootCert, c.val = 1 → c = .Nintendo_CA := by
  refine ⟨rfl, fun c h => ?_⟩
  cases c <;> first | rfl | (exact absurd h (by decide))

/-- C4: `SSLC_DefaultClientCert` has a single member, `ClCertA`, of value 0x40:
every value of the type is that member, so any two values are equal. -/
theorem defaultClientCert_single :
    SSLC_DefaultClientCert.members = [.ClCertA]
    ∧ SSLC_DefaultClientCert.ClCertA.val = 0x40
    ∧ (∀ c : SSLC_DefaultClientCert, c = .ClCertA)
    ∧ (∀ a b : SSLC_DefaultClientCert, a = b ∧ a.val = b.val) := by
  refine ⟨rfl, rfl, fun c => ?_, fun a b => ?_⟩
  · cases c; rfl
  · cases a; cases b; exact ⟨rfl, rfl⟩

/-- C9: `SSLCOPT_Default` is 0: it has neither the `SSLCOPT_DisableVerify` bit
(2^9) nor the `SSLCOPT_TLSv10` bit (2^11), and `m | SSLCOPT_Default = m` for
every option word `m`; the two option constants are each a single bit and
`SSLCOPT_DisableVerify & SSLCOPT_TLSv10 = 0`. -/
theorem default_sets_no_option :
    SSLCOPT_Default = 0
    ∧ SSLCOPT_Default &&& SSLCOPT_DisableVerify = 0
    ∧ SSLCOPT_Default &&& SSLCOPT_TLSv10 = 0
    ∧ (∀ m : Nat, m ||| SSLCOPT_Default = m)
    ∧ SSLCOPT_DisableVerify = 2 ^ 9
    ∧ SSLCOPT_TLSv10 = 2 ^ 11
    ∧ SSLCOPT_DisableVerify &&& SSLCOPT_TLSv10 = 0 := by
  refine ⟨rfl, by decide, by decide, fun m => ?_, by decide, by decide, by decide⟩
  show m ||| 0 = m
  exact Nat.or_zero m

/-- C10: an integer `v` is the value of some `SSLC_DefaultRootCert` member if
and only if `1 ≤ v ≤ 11`; 0 is not such a value, and neither is the value 0x40
of the default client certificate. -/
theorem defaultRootCert_ids_range :
    (∀ v : Int, (∃ c : SSLC_DefaultRootCert, c.val = v) ↔ 1 ≤ v ∧ v ≤ 11)
    ∧ (¬ ∃ c : SSLC_DefaultRootCert, c.val = 0)
    ∧ (∀ (c : SSLC_DefaultRootCert) (d : SSLC_DefaultClientCert), c.val ≠ d.val) := by
  refine ⟨fun v => ⟨?_, fun h => ?_⟩, ?_, fun c d => ?_⟩
  · rintro ⟨c, rfl⟩
    exact rootCert_val_range c
  · obtain ⟨c, _, hc⟩ := rootCert_of_range v h.1 h.2
    exact ⟨c, hc⟩
  · rintro ⟨c, hc⟩
    have := (rootCert_val_range c).1
    omega
  · cases d
    have := (rootCert_val_range c).2
    show c.val ≠ 0x40
    omega

/-- C5: when `sslcStartConnection` returns an error, the caller's
`internal_retval` and `out` locations are left unchanged. -/
theorem startConnection_error_keeps_outputs (s : TLSSession) (handshake : Option (Int × Nat))
    (internal_retval : Option Int) (out : Option Nat) (e : Error)
    (h : (sslcStartConnection s handshake internal_retval out).result = .error e) :
    (sslcStartConnection s handshake internal_retval out).internal_retval = internal_retval
    ∧ (sslcStartConnection s handshake internal_retval out).out = out := by
  unfold sslcStartConnection at h ⊢
  by_cases hst : s.state = .Created ∨ s.state = .Configured
  · cases handshake with
    | none => simp [hst]
    | some p => simp [hst] at h
  · simp [hst]

/-- Witness for C5: a failed handshake on a Created session leaves both output
locations with their previous contents. -/
theorem startConnection_error_keeps_outputs_witness :
    (sslcStartConnection exampleSession none (some 5) (some 9)).result
        = .error .HandshakeFailure
    ∧ (sslcStartConnection exampleSession none (some 5) (some 9)).internal_retval = some 5
    ∧ (sslcStartConnection exampleSession none (some 5) (some 9)).out = some 9 :=
  ⟨rfl,
    startConnection_error_keeps_outputs exampleSession none (some 5) (some 9)
      .HandshakeFailure rfl⟩

/-- C6: on an Established session, a peek read of `len` bytes followed by a
consuming read of `len` bytes returns the same bytes for the two reads, the
peek leaves the session as it was, and a second peek returns the same bytes
again. -/
theorem peek_does_not_consume (s : TLSSession) (len : Nat)
    (h : s.state = .Established) :
    ∃ bytes : List Nat,
      (sslcRead s len true).result = .ok bytes
      ∧ (sslcRead (sslcRead s len true).session len true).result = .ok bytes
      ∧ (sslcRead (sslcRead s len true).session len false).result = .ok bytes
      ∧ (sslcRead s len true).session = s
      ∧ bytes = s.incoming.take len := by
  refine ⟨s.incoming.take len, ?_⟩
  simp [sslcRead, h]

/-- Witness for C6: peeking four bytes of the example session and then reading
them. -/
theorem peek_does_not_consume_witness :
    exampleEstablished.state = .Established
    ∧ ∃ bytes : List Nat,
      (sslcRead exampleEstablished 4 true).result = .ok bytes
      ∧ (sslcRead (sslcRead exampleEstablished 4 true).session 4 true).result = .ok bytes
      ∧ (sslcRead (sslcRead exampleEstablished 4 true).session 4 false).result = .ok bytes
      ∧ (sslcRead exampleEstablished 4 true).session = exampleEstablished
      ∧ bytes = exampleEstablished.incoming.take 4 :=
  ⟨rfl, peek_does_not_consume exampleEstablished 4 rfl⟩

/-- C7: for every session, in any state, `sslcDestroyContext` leaves every
descriptor, the bound one included, as open or closed as it was, and the
session is Closed afterwards; a descriptor accepted by `sslcCreateContext` is
still open after the session created on it is destroyed. -/
theorem destroy_keeps_socket :
    (∀ (t : Transport) (s : TLSSession) (fd : Int),
      (sslcDestroyContext t s).transport.isOpen fd = t.isOpen fd)
    ∧ (∀ (t : Transport) (s : TLSSession),
      (sslcDestroyContext t s).transport.isOpen s.sockfd = t.isOpen s.sockfd
      ∧ (sslcDestroyContext t s).session.sockfd = s.sockfd
      ∧ (sslcDestroyContext t s).session.state = .Closed
      ∧ (sslcDestroyContext t s).result = .ok ())
    ∧ (∀ (t : Transport) (conn : ServiceConnection) (sslchandle : Nat) (sockfd : Int)
        (input_opt : Nat) (hostname : String) (s : TLSSession),
      sslcCreateContext t conn sslchandle sockfd input_opt hostname = .ok s →
        s.sockfd = sockfd ∧ (sslcDestroyContext t s).transport.isOpen sockfd = true) := by
  refine ⟨fun _ _ _ => rfl, fun _ _ => ⟨rfl, rfl, rfl, rfl⟩, ?_⟩
  intro t conn sslchandle sockfd input_opt hostname s h
  unfold sslcCreateContext at h
  split at h
  · exact absurd h (by simp)
  · rename_i hc
    simp only [Bool.or_eq_true, Bool.not_eq_true', not_or, Bool.not_eq_false] at hc
    injection h with h
    subst h
    exact ⟨rfl, hc.2⟩

/-- Witness for C7: a session created on the open descriptor 3 and destroyed;
descriptor 3 is still open. -/
theorem destroy_keeps_socket_witness :
    sslcCreateContext exampleTransport ⟨true, 7⟩ 1 3 SSLCOPT_Default "example.com"
        = .ok exampleSession
    ∧ exampleSession.sockfd = 3
    ∧ (sslcDestroyContext exampleTransport exampleSession).transport.isOpen 3 = true :=
  ⟨rfl,
    destroy_keeps_socket.2.2 exampleTransport ⟨true, 7⟩ 1 3 SSLCOPT_Default "example.com"
      exampleSession rfl⟩

/-- C8, as stated, fails on an open connection: `sslcInit` with the non-zero
handle 5 on a service connection already open on handle 7 succeeds, makes no
request and keeps handle 7 as the main service session; handle 5 is not
adopted. -/
theorem init_on_open_connection_keeps_handle :
    (5 : Nat) ≠ 0
    ∧ (sslcInit ⟨⟨true, 7⟩, 1⟩ 5 ⟨some 8, true⟩).result = .ok ()
    ∧ (sslcInit ⟨⟨true, 7⟩, 1⟩ 5 ⟨some 8, true⟩).service.conn.handle = 7
    ∧ (sslcInit ⟨⟨true, 7⟩, 1⟩ 5 ⟨some 8, true⟩).service.conn.handle ≠ 5
    ∧ (sslcInit ⟨⟨true, 7⟩, 1⟩ 5 ⟨some 8, true⟩).service.refcount = 2 :=
  ⟨by decide, rfl, rfl, by decide, rfl⟩

/-- C8, amended: on a service connection that is not yet open, for every
non-zero `session_handle`, `sslcInit` succeeds with that handle as the open
service connection, takes one reference and makes no request; for every
connection, a non-zero `session_handle` means neither discovery nor the
Initialize command is requested, so both are requested only when
`session_handle` is 0; on a connection that is not yet open, handle 0 does
request discovery, and the discovered handle becomes the connection when the
Initialize command succeeds; on a connection that is already open, `sslcInit`
only takes one more reference: the connection and its handle stay as they
were and no request is made. -/
theorem init_adopts_handle_when_closed (sv : SslcService) (session_handle : Nat)
    (env : InitEnv) :
    (sv.conn.isOpen = false → session_handle ≠ 0 →
      (sslcInit sv session_handle env).result = .ok ()
      ∧ (sslcInit sv session_handle env).service.conn
          = { isOpen := true, handle := session_handle }
      ∧ (sslcInit sv session_handle env).service.refcount = sv.refcount + 1
      ∧ (sslcInit sv session_handle env).actions = [])
    ∧ (session_handle ≠ 0 → (sslcInit sv session_handle env).actions = [])
    ∧ (InitAction.Discover ∈ (sslcInit sv session_handle env).actions → session_handle = 0)
    ∧ (InitAction.Initialize ∈ (sslcInit sv session_handle env).actions →
        session_handle = 0)
    ∧ (sv.conn.isOpen = false → session_handle = 0 →
        InitAction.Discover ∈ (sslcInit sv session_handle env).actions)
    ∧ (sv.conn.isOpen = false → session_handle = 0 →
        ∀ h, env.discovered = some h → env.initOk = true →
          (sslcInit sv session_handle env).result = .ok ()
          ∧ (sslcInit sv session_handle env).service.conn = { isOpen := true, handle := h })
    ∧ (sv.conn.isOpen = true →
        (sslcInit sv session_handle env).result = .ok ()
        ∧ (sslcInit sv session_handle env).service.conn = sv.conn
        ∧ (sslcInit sv session_handle env).service.refcount = sv.refcount + 1
        ∧ (sslcInit sv session_handle env).actions = []) := by
  cases hopen : sv.conn.isOpen
  · by_cases h0 : session_handle = 0
    · subst h0
      refine ⟨fun _ h => absurd rfl h, fun h => absurd rfl h, fun _ => rfl, fun _ => rfl,
        fun _ _ => ?_, fun _ _ h hd hi => ?_, fun h => absurd h (by simp)⟩
      · unfold sslcInit
        cases hd : env.discovered <;> cases hi : env.initOk <;> simp [hopen]
      · simp [sslcInit, hopen, hd, hi]
    · refine ⟨fun _ _ => ?_, fun _ => ?_, ?_, ?_, fun _ h => absurd h h0,
        fun _ h => absurd h h0, fun h => absurd h (by simp)⟩ <;> simp [sslcInit, hopen, h0]
  · refine ⟨fun h => absurd h (by simp), fun _ => ?_, ?_, ?_, fun h => absurd h (by simp),
      fun h => absurd h (by simp), fun _ => ?_⟩ <;> simp [sslcInit, hopen]

/-- Witness for C8, amended: `sslcInit` with the handle 5 on a closed service
connection adopts handle 5 without any request. -/
theorem init_adopts_handle_when_closed_witness :
    (⟨⟨false, 0⟩, 0⟩ : SslcService).conn.isOpen = false
    ∧ (5 : Nat) ≠ 0
    ∧ (sslcInit ⟨⟨false, 0⟩, 0⟩ 5 ⟨some 8, true⟩).result = .ok ()
    ∧ (sslcInit ⟨⟨false, 0⟩, 0⟩ 5 ⟨some 8, true⟩).service.conn = ⟨true, 5⟩
    ∧ (sslcInit ⟨⟨false, 0⟩, 0⟩ 5 ⟨some 8, true⟩).service.refcount = 0 + 1
    ∧ (sslcInit ⟨⟨false, 0⟩, 0⟩ 5 ⟨some 8, true⟩).actions = [] :=
  ⟨rfl, by decide,
    (init_adopts_handle_when_closed ⟨⟨false, 0⟩, 0⟩ 5 ⟨some 8, true⟩).1 rfl (by decide)⟩

end Sslc
